import Mathlib

/-!
Verification of the NCSHF dashboard's data-cleaning pipeline.

The development shallowly embeds `clean_data` from `scripts/data_processing.py`
and the grant-utilization column derivation from `app.py`
(`show_grant_utilization_page`).  A pandas DataFrame is modelled as an ordered
association list of named columns; a cell is `Option Val` where `none` stands
for a missing value (pandas NaN/NaT/None).  Per-cell parsers model pandas'
tolerant coercions (`pd.to_datetime(errors='coerce')`,
`pd.to_numeric(errors='coerce')`) restricted to the plain decimal and
M/D/YYYY slash formats that the data sheet uses; an unparseable cell becomes
`none`, never an error.
-/

/-- Calendar date, as carried by a parsed datetime cell. -/
structure Date where
  year : Int
  month : Nat
  day : Nat
deriving DecidableEq, Repr

/-- A dynamically-typed cell value, mirroring the value kinds the pandas
pipeline produces: strings, numbers (modelled as exact rationals), parsed
dates and booleans. -/
inductive Val where
  | str (s : String)
  | num (q : Rat)
  | date (d : Date)
  | boolV (b : Bool)
deriving DecidableEq, Repr

/-- A DataFrame: a row count and an ordered list of named columns, each a list
of cells aligned with the row index.  `none` cells are pandas NaN. -/
structure Frame where
  nrows : Nat
  cols : List (String × List (Option Val))
deriving DecidableEq, Repr

/-- ASCII lower-casing of a character (models `str.lower` on the data
actually present in the sheet). -/
def lowerChar (c : Char) : Char :=
  if 'A' ≤ c ∧ c ≤ 'Z' then Char.ofNat (c.toNat + 32) else c

/-- ASCII upper-casing of a character. -/
def upperChar (c : Char) : Char :=
  if 'a' ≤ c ∧ c ≤ 'z' then Char.ofNat (c.toNat - 32) else c

/-- Lower-case a whole string, as `Series.str.lower` does per cell. -/
def lowerString (s : String) : String :=
  String.mk (s.data.map lowerChar)

/-- Whitespace recognised by `str.strip`. -/
def isSpaceChar (c : Char) : Bool :=
  c = ' ' ∨ c = '\t' ∨ c = '\n' ∨ c = '\r'

/-- Strip leading and trailing whitespace from a character list
(models `str.strip`). -/
def trimChars (l : List Char) : List Char :=
  ((l.dropWhile isSpaceChar).reverse.dropWhile isSpaceChar).reverse

/-- `str.capitalize` on a word: first character upper-cased, the rest
lower-cased. -/
def capitalizeWord (l : List Char) : List Char :=
  match l with
  | [] => []
  | c :: r => upperChar c :: r.map lowerChar

/-- Column-name standardization from `clean_data` line 22:
strip, lower, spaces to underscores, parentheses removed. -/
def standardizeName (s : String) : String :=
  String.mk ((((trimChars s.data).map lowerChar).map
      (fun c => if c = ' ' then '_' else c)).filter
      (fun c => ¬ (c = '(' ∨ c = ')')))

/-- The fixed alias table (`rename_map`, `clean_data` lines 25-33). -/
def renameMap : List (String × String) :=
  [("grant_req_date", "request_date"),
   ("application_signed?", "application_signed"),
   ("request_status", "status"),
   ("total_household_gross_monthly_income", "monthly_income"),
   ("type_of_assistance_class", "assistance_type"),
   ("amount", "amount_granted"),
   ("dob", "date_of_birth")]

/-- Value of a digit character. -/
def digitsToNat (l : List Char) : Nat :=
  l.foldl (fun a c => a * 10 + (c.toNat - 48)) 0

/-- Whether every character is a decimal digit. -/
def allDigits (l : List Char) : Bool :=
  l.all (fun c => '0' ≤ c ∧ c ≤ '9')

/-- Tolerant decimal parser modelling `pd.to_numeric(errors='coerce')` on the
plain `[-+]ddd[.ddd]` forms found in the sheet; anything else is `none`. -/
def parseRat (s : String) : Option Rat :=
  let l := trimChars s.data
  let (neg, body) :=
    match l with
    | '-' :: r => (true, r)
    | '+' :: r => (false, r)
    | _ => (false, l)
  match body.splitOn '.' with
  | [ip] =>
      if ip ≠ [] ∧ allDigits ip then
        some (if neg then -(digitsToNat ip : Rat) else (digitsToNat ip : Rat))
      else none
  | [ip, fp] =>
      if (ip ≠ [] ∨ fp ≠ []) ∧ allDigits ip ∧ allDigits fp then
        let q : Rat := (digitsToNat ip : Rat) + (digitsToNat fp : Rat) / ((10 : Rat) ^ fp.length)
        some (if neg then -q else q)
      else none
  | _ => none

/-- Whether an (integer) year is a leap year. -/
def isLeapYear (y : Int) : Bool :=
  (y % 4 = 0 ∧ y % 100 ≠ 0) ∨ y % 400 = 0

/-- Days in a month of a given year. -/
def daysInMonth (y : Int) (m : Nat) : Nat :=
  if m = 2 then (if isLeapYear y then 29 else 28)
  else if m = 4 ∨ m = 6 ∨ m = 9 ∨ m = 11 then 30
  else 31

/-- Whether a date at midnight lies inside pandas' nanosecond `Timestamp`
range.  `Timestamp.min` is 1677-09-21 00:12:43, so the earliest midnight
date is 1677-09-22; `Timestamp.max` is 2262-04-11 23:47:16, so the latest
midnight date is 2262-04-11.  Dates outside this window make
`pd.to_datetime(errors='coerce')` produce NaT. -/
def tsInBounds (y : Int) (m d : Nat) : Bool :=
  (1677 < y ∨ (y = 1677 ∧ (9 < m ∨ (m = 9 ∧ 22 ≤ d)))) ∧
  (y < 2262 ∨ (y = 2262 ∧ (m < 4 ∨ (m = 4 ∧ d ≤ 11))))

/-- Tolerant date parser modelling `pd.to_datetime(errors='coerce')` on the
M/D/YYYY slash format used by the sheet: an out-of-range month or day (for
example `13/45/2000`), or a date outside the nanosecond `Timestamp` bounds
(for example year 3000), fails to parse and yields `none` (pandas NaT). -/
def parseDate (s : String) : Option Date :=
  match (trimChars s.data).splitOn '/' with
  | [ms, ds, ys] =>
      if (ms ≠ [] ∧ allDigits ms) ∧ (ds ≠ [] ∧ allDigits ds) ∧ (ys ≠ [] ∧ allDigits ys) then
        let m := digitsToNat ms
        let d := digitsToNat ds
        let y : Int := (digitsToNat ys : Int)
        if (1 ≤ m ∧ m ≤ 12 ∧ 1 ≤ d ∧ d ≤ daysInMonth y m) ∧ tsInBounds y m d = true then
          some ⟨y, m, d⟩
        else none
      else none
  | _ => none

/-- `pd.to_datetime(errors='coerce')` per cell: strings go through the
tolerant parser, already-parsed dates pass through, anything else is NaT. -/
def toDatetime : Option Val → Option Val
  | some (Val.str s) => (parseDate s).map Val.date
  | some (Val.date d) => some (Val.date d)
  | _ => none

/-- `pd.to_numeric(errors='coerce')` per cell: numbers pass through, strings
go through the tolerant parser, booleans become 0/1, anything else NaN. -/
def toNumeric : Option Val → Option Val
  | some (Val.num q) => some (Val.num q)
  | some (Val.str s) => (parseRat s).map Val.num
  | some (Val.boolV b) => some (Val.num (if b then 1 else 0))
  | _ => none

/-- The age lambda of `clean_data` line 59:
`today.year - dob.year if pd.notnull(dob) else None`. -/
def ageOf (todayYear : Int) : Option Val → Option Val
  | some (Val.date d) => some (Val.num ((todayYear - d.year : Int) : Rat))
  | _ => none

/-- `Series.str.strip().str.capitalize()` per cell (gender); non-string cells
become NaN, as pandas `.str` accessors do. -/
def capitalizeCell : Option Val → Option Val
  | some (Val.str s) => some (Val.str (String.mk (capitalizeWord (trimChars s.data))))
  | _ => none

/-- `Series.str.strip().str.title()` per cell (insurance_type), modelled on
space-separated words; non-string cells become NaN. -/
def titleCell : Option Val → Option Val
  | some (Val.str s) =>
      some (Val.str (String.mk
        (List.intercalate [' '] (((trimChars s.data).splitOn ' ').map capitalizeWord))))
  | _ => none

/-- Pointwise numeric subtraction of two cells; NaN propagates
(`df['amount_granted'] - df['remaining_balance']`). -/
def subCell : Option Val → Option Val → Option Val
  | some (Val.num a), some (Val.num b) => some (Val.num (a - b))
  | _, _ => none

/-- Pointwise subtraction of two columns. -/
def zipSub (xs ys : List (Option Val)) : List (Option Val) :=
  List.zipWith subCell xs ys

/-- `series <= 0` per cell: NaN compares false
(`df['full_grant_used'] = df['remaining_balance'] <= 0`). -/
def leZeroCell : Option Val → Option Val
  | some (Val.num a) => some (Val.boolV (a ≤ 0))
  | _ => some (Val.boolV false)

/-- `series <= 0.01` per cell: NaN compares false
(`df['Fully Utilized'] = df['Unused Amount'] <= 0.01` in `app.py`). -/
def leTolCell : Option Val → Option Val
  | some (Val.num a) => some (Val.boolV (a ≤ 1 / 100))
  | _ => some (Val.boolV false)

/-- `pd.cut(df['monthly_income'], bins=[0,2000,4000,6000,10000,100000], labels=[...])`
per cell.  pandas `cut` makes left-open, right-closed intervals
`(0,2000], (2000,4000], (4000,6000], (6000,10000], (10000,100000]`; values
outside every bin, and non-numeric cells, get no category. -/
def incomeBracket : Option Val → Option Val
  | some (Val.num q) =>
      if 0 < q ∧ q ≤ 2000 then some (Val.str "<2k")
      else if 2000 < q ∧ q ≤ 4000 then some (Val.str "2–4k")
      else if 4000 < q ∧ q ≤ 6000 then some (Val.str "4–6k")
      else if 6000 < q ∧ q ≤ 10000 then some (Val.str "6–10k")
      else if 10000 < q ∧ q ≤ 100000 then some (Val.str "10k+")
      else none
  | _ => none

/-- `df['ready_for_review'] = (df['status'].str.lower() == 'approved')` per
cell: exact equality with "approved" after lower-casing; non-string cells
(NaN under `.str`) compare false. -/
def readyFlag : Option Val → Option Val
  | some (Val.str s) => some (Val.boolV (lowerString s = "approved"))
  | _ => some (Val.boolV false)

/-- `df['signed_by_committee'] = df['application_signed'].str.lower().isin(['yes','signed'])`
per cell. -/
def signedFlag : Option Val → Option Val
  | some (Val.str s) =>
      some (Val.boolV (lowerString s = "yes" ∨ lowerString s = "signed"))
  | _ => some (Val.boolV false)

/-- Substring occurrence test on character lists. -/
def containsSub (hay pat : List Char) : Bool :=
  (List.range (hay.length + 1)).any (fun i => (hay.drop i).take pat.length == pat)

/-- Review-readiness as the spec words it (spec-side definition, written from
the spec's sentence for comparison with the code's `readyFlag`): the status
text, compared case-insensitively, equals or contains "approved", "ready" or
"review". -/
def specReady (s : String) : Bool :=
  containsSub (lowerString s).data "approved".data ||
  containsSub (lowerString s).data "ready".data ||
  containsSub (lowerString s).data "review".data

/-- Replace the cells of every column named `t` using `g`, keeping names and
order (the list-level core of column assignment). -/
def modifyCol {β : Type} (t : String) (g : β → β) :
    List (String × β) → List (String × β)
  | [] => []
  | (k, v) :: ps => (if k = t then (k, g v) else (k, v)) :: modifyCol t g ps

/-- First column with the given name, if any. -/
def Frame.lookupCol (f : Frame) (c : String) : Option (List (Option Val)) :=
  f.cols.lookup c

/-- `c in df.columns`. -/
def Frame.hasCol (f : Frame) (c : String) : Bool :=
  (f.cols.lookup c).isSome

/-- `df[c]` read; an absent column reads as all-NaN (only ever used by the
pipeline behind a presence check, except for the subtraction on line 72 of
`clean_data`, which would raise in pandas if `amount_granted` were absent). -/
def Frame.getCol (f : Frame) (c : String) : List (Option Val) :=
  (f.cols.lookup c).getD (List.replicate f.nrows none)

/-- `df[c] = cells`: overwrite the column if present, else append it. -/
def Frame.setCol (f : Frame) (c : String) (cells : List (Option Val)) : Frame :=
  if f.hasCol c then { f with cols := modifyCol c (fun _ => cells) f.cols }
  else { f with cols := f.cols ++ [(c, cells)] }

/-- `df[c] = df[c].apply(g)`: transform the cells of column `c` in place. -/
def Frame.mapCol (f : Frame) (c : String) (g : Option Val → Option Val) : Frame :=
  { f with cols := modifyCol c (List.map g) f.cols }

/-- Apply a per-cell transform to a column only when it is present
(the `if c in df.columns:` guard used throughout `clean_data`). -/
def mapColIf (f : Frame) (c : String) (g : Option Val → Option Val) : Frame :=
  if f.hasCol c then f.mapCol c g else f

/-- `fillna(v)` when the column exists, else `df[c] = v`
(`clean_data` lines 39-48). -/
def fillOrSet (f : Frame) (c : String) (v : Val) : Frame :=
  if f.hasCol c then f.mapCol c (fun o => some (o.getD v))
  else f.setCol c (List.replicate f.nrows (some v))

/-- Standardize every column name (`clean_data` line 22). -/
def standardizeCols (f : Frame) : Frame :=
  { f with cols := f.cols.map (fun p => (standardizeName p.1, p.2)) }

/-- Rename columns through the alias table (`clean_data` line 34);
names with no alias entry are kept. -/
def renameCols (m : List (String × String)) (f : Frame) : Frame :=
  { f with cols := f.cols.map (fun p => ((m.lookup p.1).getD p.1, p.2)) }

/-- Which rows survive `dropna(how='all')`: a row is kept iff some column has
a non-missing cell there. -/
def keepMask (f : Frame) : List Bool :=
  (List.range f.nrows).map (fun i => f.cols.any (fun p => ((p.2.get? i).getD none).isSome))

/-- Restrict a column to the rows selected by the mask. -/
def applyMask (mask : List Bool) (cells : List (Option Val)) : List (Option Val) :=
  (List.zip mask cells).filterMap (fun x => if x.1 then some x.2 else none)

/-- `df.dropna(how='all', inplace=True)` (`clean_data` line 37). -/
def dropEmptyRows (f : Frame) : Frame :=
  let mask := keepMask f
  { nrows := (mask.filter (fun b => b)).length,
    cols := f.cols.map (fun p => (p.1, applyMask mask p.2)) }

/-- `clean_data` lines 21-37: standardize names, resolve aliases, drop
all-empty rows. -/
def phaseA (f : Frame) : Frame :=
  dropEmptyRows (renameCols renameMap (standardizeCols f))

/-- `clean_data` lines 39-48: default-fill the two key flags. -/
def phaseFlags (f : Frame) : Frame :=
  fillOrSet (fillOrSet f "application_signed" (Val.str "Missing")) "status" (Val.str "Unknown")

/-- `clean_data` lines 50-54: coerce the two date columns. -/
def dateSteps (f : Frame) : Frame :=
  mapColIf (mapColIf f "request_date" toDatetime) "date_of_birth" toDatetime

/-- `clean_data` lines 56-59: derive `age` when `date_of_birth` exists. -/
def ageStep (todayYear : Int) (f : Frame) : Frame :=
  if f.hasCol "date_of_birth" then
    f.setCol "age" ((f.getCol "date_of_birth").map (ageOf todayYear))
  else f

/-- `clean_data` lines 62-63. -/
def genderStep (f : Frame) : Frame :=
  mapColIf f "gender" capitalizeCell

/-- `clean_data` lines 64-65. -/
def insuranceStep (f : Frame) : Frame :=
  mapColIf f "insurance_type" titleCell

/-- `clean_data` lines 68-69. -/
def amountStep (f : Frame) : Frame :=
  mapColIf f "amount_granted" toNumeric

/-- `clean_data` lines 70-73: when a `remaining_balance` column exists, coerce
it, derive `amount_used = amount_granted - remaining_balance` and
`full_grant_used = remaining_balance <= 0`. -/
def balanceStep (f : Frame) : Frame :=
  if f.hasCol "remaining_balance" then
    let f1 := f.mapCol "remaining_balance" toNumeric
    let f2 := f1.setCol "amount_used"
      (zipSub (f1.getCol "amount_granted") (f1.getCol "remaining_balance"))
    f2.setCol "full_grant_used" ((f2.getCol "remaining_balance").map leZeroCell)
  else f

/-- `clean_data` lines 76-78. -/
def incomeStep (f : Frame) : Frame :=
  if f.hasCol "monthly_income" then
    f.setCol "income_bracket" ((f.getCol "monthly_income").map incomeBracket)
  else f

/-- `clean_data` lines 81-82. -/
def readyStep (f : Frame) : Frame :=
  if f.hasCol "status" then
    f.setCol "ready_for_review" ((f.getCol "status").map readyFlag)
  else f

/-- `clean_data` lines 85-86. -/
def signedStep (f : Frame) : Frame :=
  if f.hasCol "application_signed" then
    f.setCol "signed_by_committee" ((f.getCol "application_signed").map signedFlag)
  else f

/-- `clean_data` lines 62-86 after the age derivation. -/
def phaseTail (f : Frame) : Frame :=
  signedStep (readyStep (incomeStep (balanceStep (amountStep (insuranceStep (genderStep f))))))

/-- The whole `clean_data` transform (`scripts/data_processing.py` lines
18-87), as a function of the run date's year (`pd.to_datetime('today').year`)
and the raw table; the surrounding file I/O is outside the transform. -/
def cleanData (todayYear : Int) (raw : Frame) : Frame :=
  phaseTail (ageStep todayYear (dateSteps (phaseFlags (phaseA raw))))

/-- Priority list of utilization source columns
(`app.py` line 411, `show_grant_utilization_page`). -/
def utilSourceCols : List String :=
  ["Amount Utilized", "Utilized Amount", "amount_used", "Remaining Balance"]

/-- The column derivation of `show_grant_utilization_page` (`app.py` lines
411-422), performed once the page has checked that `Amount` exists: pick the
first utilization source column; if none exists assume full utilization
(`Amount Utilized = Amount`); then derive `Unused Amount` and
`Fully Utilized = Unused Amount <= 0.01`. -/
def grantUtilization (f : Frame) : Frame :=
  let f1 :=
    match utilSourceCols.find? (fun c => f.hasCol c) with
    | none => f.setCol "Amount Utilized" (f.getCol "Amount")
    | some u =>
        if u = "Remaining Balance" then
          f.setCol "Amount Utilized" (zipSub (f.getCol "Amount") ((f.getCol u).map toNumeric))
        else
          f.setCol "Amount Utilized" ((f.getCol u).map toNumeric)
  let f2 := f1.setCol "Unused Amount" (zipSub (f1.getCol "Amount") (f1.getCol "Amount Utilized"))
  f2.setCol "Fully Utilized" ((f2.getCol "Unused Amount").map leTolCell)

/-- Raw input of one row with an amount of 100 and a remaining balance of
0.005: within the 0.01 tolerance but strictly positive. -/
def c1frame : Frame :=
  { nrows := 1,
    cols := [("Amount", [some (Val.num 100)]),
             ("Remaining Balance", [some (Val.num (1 / 200))])] }

/-- Raw input with monthly incomes exactly 2000 and exactly 0. -/
def c2frame : Frame :=
  { nrows := 2,
    cols := [("Total Household Gross Monthly Income",
              [some (Val.num 2000), some (Val.num 0)])] }

/-- Raw input with a request status of "Ready". -/
def c3frame : Frame :=
  { nrows := 1, cols := [("Request Status", [some (Val.str "Ready")])] }

/-- Raw input whose DOB cell is the invalid date "13/45/2000". -/
def c4frame : Frame :=
  { nrows := 1, cols := [("DOB", [some (Val.str "13/45/2000")])] }

/-- Raw input with an amount column but no utilization source column. -/
def c5frame : Frame :=
  { nrows := 1, cols := [("Amount", [some (Val.num 500)])] }

/-- Raw input with a birth date in the future (year 2200, inside pandas'
`Timestamp` range). -/
def c6frame : Frame :=
  { nrows := 1, cols := [("DOB", [some (Val.str "01/01/2200")])] }

/-- Raw input with a birth date, so that the derived age depends on the year
the pipeline runs in. -/
def c8frame : Frame :=
  { nrows := 1, cols := [("DOB", [some (Val.str "01/01/2000")])] }

/-- Raw input with a gender column; its standardized name "gender" matches no
alias-table entry. -/
def c9frame : Frame :=
  { nrows := 1, cols := [("Gender", [some (Val.str "male ")])] }

/-- Already-loaded dashboard table with an Amount column and no utilization
source column (witness input for the utilization-page derivation). -/
def w5frame : Frame :=
  { nrows := 2,
    cols := [("Amount", [some (Val.num 500), some (Val.num 250)]),
             ("Pt Name", [some (Val.str "A"), some (Val.str "B")])] }

/-- Raw input with neither a status nor a signature source column. -/
def w7frame : Frame :=
  { nrows := 1, cols := [("Pt Name", [some (Val.str "A")])] }

/-- Raw input reused to witness that non-age columns do not depend on the
run year. -/
def w8frame : Frame :=
  { nrows := 1, cols := [("DOB", [some (Val.str "01/01/2000")]),
                         ("Request Status", [some (Val.str "Approved")])] }

/-- Raw input with a passthrough column ("Pt Name") untouched by the
pipeline. -/
def w9frame : Frame :=
  { nrows := 1, cols := [("Pt Name", [some (Val.str "X")])] }

/-- Raw input with no status or signature source, to witness the derived
boolean columns. -/
def w10frame : Frame :=
  { nrows := 2, cols := [("Amount", [some (Val.num 10), some (Val.num 20)])] }

/-- The canonical names whose cells `clean_data` writes, fills, coerces or
overwrites after alias resolution; every other column passes through
untouched. -/
def touchedCols : List String :=
  ["application_signed", "status", "request_date", "date_of_birth", "age",
   "gender", "insurance_type", "amount_granted", "remaining_balance",
   "amount_used", "full_grant_used", "income_bracket", "ready_for_review",
   "signed_by_committee"]

/-- Pointwise agreement of two column lists everywhere except (possibly) at
columns named `c`: same names in the same order, and equal cells at every
other name. -/
def colsAgree (c : String) :
    List (String × List (Option Val)) → List (String × List (Option Val)) → Prop
  | [], [] => True
  | p :: ps, q :: qs => p.1 = q.1 ∧ (p.1 ≠ c → p.2 = q.2) ∧ colsAgree c ps qs
  | _, _ => False

/-- Two frames that agree on row count and on every column except (possibly)
the one named `c`. -/
def FrameAgree (c : String) (f g : Frame) : Prop :=
  f.nrows = g.nrows ∧ colsAgree c f.cols g.cols


theorem lookup_cons_ne {β : Type} {c k : String} {v : β} {ps : List (String × β)}
    (h : ¬ c = k) : List.lookup c ((k, v) :: ps) = List.lookup c ps := by
  simp [List.lookup, beq_eq_false_iff_ne.mpr h]

theorem lookup_cons_eq {β : Type} {c : String} {v : β} {ps : List (String × β)} :
    List.lookup c ((c, v) :: ps) = some v := by
  simp [List.lookup]

theorem lookup_modifyCol_ne {β : Type} (t c : String) (g : β → β) (h : ¬ c = t) :
    ∀ l : List (String × β), (modifyCol t g l).lookup c = l.lookup c := by
  intro l
  induction l with
  | nil => rfl
  | cons p ps ih =>
      obtain ⟨k, v⟩ := p
      by_cases hc : c = k
      · subst hc
        have hkt : ¬ c = t := h
        simp only [modifyCol, if_neg (fun hh => h hh : ¬ c = t)]
        rw [lookup_cons_eq, lookup_cons_eq]
      · by_cases hp : k = t
        · simp only [modifyCol, if_pos hp]
          rw [lookup_cons_ne hc, lookup_cons_ne hc]
          exact ih
        · simp only [modifyCol, if_neg hp]
          rw [lookup_cons_ne hc, lookup_cons_ne hc]
          exact ih

theorem lookup_modifyCol_self {β : Type} (t : String) (g : β → β) :
    ∀ l : List (String × β), (modifyCol t g l).lookup t = (l.lookup t).map g := by
  intro l
  induction l with
  | nil => rfl
  | cons p ps ih =>
      obtain ⟨k, v⟩ := p
      by_cases hp : k = t
      · subst hp
        simp only [modifyCol, eq_self_iff_true, if_true]
        rw [lookup_cons_eq, lookup_cons_eq]
        rfl
      · have htk : ¬ t = k := fun hh => hp hh.symm
        simp only [modifyCol, if_neg hp]
        rw [lookup_cons_ne htk, lookup_cons_ne htk]
        exact ih

theorem lookup_append_of_some {β : Type} {l1 : List (String × β)} (l2 : List (String × β))
    {c : String} {v : β} (h : l1.lookup c = some v) : (l1 ++ l2).lookup c = some v := by
  induction l1 with
  | nil => simp [List.lookup] at h
  | cons p ps ih =>
      obtain ⟨k, w⟩ := p
      by_cases hc : c = k
      · subst hc
        rw [lookup_cons_eq] at h
        rw [List.cons_append, lookup_cons_eq]
        exact h
      · rw [lookup_cons_ne hc] at h
        rw [List.cons_append, lookup_cons_ne hc]
        exact ih h

theorem lookup_append_of_none {β : Type} {l1 : List (String × β)} (l2 : List (String × β))
    {c : String} (h : l1.lookup c = none) : (l1 ++ l2).lookup c = l2.lookup c := by
  induction l1 with
  | nil => rfl
  | cons p ps ih =>
      obtain ⟨k, w⟩ := p
      by_cases hc : c = k
      · subst hc
        rw [lookup_cons_eq] at h
        exact absurd h (by simp)
      · rw [lookup_cons_ne hc] at h
        rw [List.cons_append, lookup_cons_ne hc]
        exact ih h

theorem lookupCol_mapCol_ne (f : Frame) (t c : String) (g : Option Val → Option Val)
    (h : ¬ c = t) : (f.mapCol t g).lookupCol c = f.lookupCol c :=
  lookup_modifyCol_ne t c (List.map g) h f.cols

theorem lookupCol_mapCol_self (f : Frame) (t : String) (g : Option Val → Option Val) :
    (f.mapCol t g).lookupCol t = (f.lookupCol t).map (List.map g) :=
  lookup_modifyCol_self t (List.map g) f.cols

theorem lookupCol_setCol_ne (f : Frame) (t c : String) (cells : List (Option Val))
    (h : ¬ c = t) : (f.setCol t cells).lookupCol c = f.lookupCol c := by
  unfold Frame.setCol
  split
  · exact lookup_modifyCol_ne t c (fun _ => cells) h f.cols
  · show (f.cols ++ [(t, cells)]).lookup c = f.cols.lookup c
    cases hl : f.cols.lookup c with
    | some v => exact lookup_append_of_some _ hl
    | none =>
        rw [lookup_append_of_none _ hl, lookup_cons_ne h]
        rfl

theorem lookupCol_setCol_self (f : Frame) (t : String) (cells : List (Option Val)) :
    (f.setCol t cells).lookupCol t = some cells := by
  unfold Frame.setCol
  split
  · next hp =>
      show (modifyCol t (fun _ => cells) f.cols).lookup t = some cells
      rw [lookup_modifyCol_self]
      unfold Frame.hasCol at hp
      cases hl : f.cols.lookup t with
      | some v => simp
      | none => rw [hl] at hp; simp at hp
  · next hp =>
      unfold Frame.hasCol at hp
      have hl : f.cols.lookup t = none := by
        cases hl : f.cols.lookup t with
        | some v => rw [hl] at hp; simp at hp
        | none => rfl
      show (f.cols ++ [(t, cells)]).lookup t = some cells
      rw [lookup_append_of_none _ hl, lookup_cons_eq]

theorem hasCol_mapCol (f : Frame) (t c : String) (g : Option Val → Option Val) :
    (f.mapCol t g).hasCol c = f.hasCol c := by
  by_cases h : c = t
  · subst h
    show ((f.mapCol c g).lookupCol c).isSome = (f.lookupCol c).isSome
    rw [lookupCol_mapCol_self]
    cases f.lookupCol c <;> rfl
  · show ((f.mapCol t g).lookupCol c).isSome = (f.lookupCol c).isSome
    rw [lookupCol_mapCol_ne f t c g h]

theorem hasCol_setCol_self (f : Frame) (t : String) (cells : List (Option Val)) :
    (f.setCol t cells).hasCol t = true := by
  show ((f.setCol t cells).lookupCol t).isSome = true
  rw [lookupCol_setCol_self]
  rfl

theorem hasCol_setCol_ne (f : Frame) (t c : String) (cells : List (Option Val))
    (h : ¬ c = t) : (f.setCol t cells).hasCol c = f.hasCol c := by
  show ((f.setCol t cells).lookupCol c).isSome = (f.lookupCol c).isSome
  rw [lookupCol_setCol_ne f t c cells h]

theorem hasCol_setCol_mono (f : Frame) (t c : String) (cells : List (Option Val))
    (h : f.hasCol c = true) : (f.setCol t cells).hasCol c = true := by
  by_cases hc : c = t
  · subst hc; exact hasCol_setCol_self f c cells
  · rw [hasCol_setCol_ne f t c cells hc]; exact h

theorem lookupCol_fillOrSet_ne (f : Frame) (t c : String) (v : Val) (h : ¬ c = t) :
    (fillOrSet f t v).lookupCol c = f.lookupCol c := by
  unfold fillOrSet
  split
  · exact lookupCol_mapCol_ne f t c _ h
  · exact lookupCol_setCol_ne f t c _ h

theorem hasCol_fillOrSet_self (f : Frame) (t : String) (v : Val) :
    (fillOrSet f t v).hasCol t = true := by
  unfold fillOrSet
  split
  · next hp => rw [hasCol_mapCol]; exact hp
  · exact hasCol_setCol_self f t _

theorem hasCol_fillOrSet_mono (f : Frame) (t c : String) (v : Val)
    (h : f.hasCol c = true) : (fillOrSet f t v).hasCol c = true := by
  unfold fillOrSet
  split
  · rw [hasCol_mapCol]; exact h
  · exact hasCol_setCol_mono f t c _ h

theorem lookupCol_mapColIf_ne (f : Frame) (t c : String) (g : Option Val → Option Val)
    (h : ¬ c = t) : (mapColIf f t g).lookupCol c = f.lookupCol c := by
  unfold mapColIf
  split
  · exact lookupCol_mapCol_ne f t c g h
  · rfl

theorem hasCol_mapColIf (f : Frame) (t c : String) (g : Option Val → Option Val) :
    (mapColIf f t g).hasCol c = f.hasCol c := by
  unfold mapColIf
  split
  · exact hasCol_mapCol f t c g
  · rfl

theorem lookupCol_ageStep_ne (y : Int) (f : Frame) (c : String) (h : ¬ c = "age") :
    (ageStep y f).lookupCol c = f.lookupCol c := by
  unfold ageStep
  split
  · exact lookupCol_setCol_ne _ _ _ _ h
  · rfl

theorem hasCol_ageStep_mono (y : Int) (f : Frame) (c : String)
    (h : f.hasCol c = true) : (ageStep y f).hasCol c = true := by
  unfold ageStep
  split
  · exact hasCol_setCol_mono _ _ _ _ h
  · exact h

theorem lookupCol_balanceStep_ne (f : Frame) (c : String)
    (h1 : ¬ c = "remaining_balance") (h2 : ¬ c = "amount_used")
    (h3 : ¬ c = "full_grant_used") :
    (balanceStep f).lookupCol c = f.lookupCol c := by
  unfold balanceStep
  split
  · rw [lookupCol_setCol_ne _ _ _ _ h3, lookupCol_setCol_ne _ _ _ _ h2,
      lookupCol_mapCol_ne _ _ _ _ h1]
  · rfl

theorem hasCol_balanceStep_mono (f : Frame) (c : String)
    (h : f.hasCol c = true) : (balanceStep f).hasCol c = true := by
  unfold balanceStep
  split
  · apply hasCol_setCol_mono
    apply hasCol_setCol_mono
    rw [hasCol_mapCol]
    exact h
  · exact h

theorem lookupCol_incomeStep_ne (f : Frame) (c : String) (h : ¬ c = "income_bracket") :
    (incomeStep f).lookupCol c = f.lookupCol c := by
  unfold incomeStep
  split
  · exact lookupCol_setCol_ne _ _ _ _ h
  · rfl

theorem hasCol_incomeStep_mono (f : Frame) (c : String)
    (h : f.hasCol c = true) : (incomeStep f).hasCol c = true := by
  unfold incomeStep
  split
  · exact hasCol_setCol_mono _ _ _ _ h
  · exact h

theorem lookupCol_readyStep_ne (f : Frame) (c : String) (h : ¬ c = "ready_for_review") :
    (readyStep f).lookupCol c = f.lookupCol c := by
  unfold readyStep
  split
  · exact lookupCol_setCol_ne _ _ _ _ h
  · rfl

theorem hasCol_readyStep_mono (f : Frame) (c : String)
    (h : f.hasCol c = true) : (readyStep f).hasCol c = true := by
  unfold readyStep
  split
  · exact hasCol_setCol_mono _ _ _ _ h
  · exact h

theorem lookupCol_signedStep_ne (f : Frame) (c : String) (h : ¬ c = "signed_by_committee") :
    (signedStep f).lookupCol c = f.lookupCol c := by
  unfold signedStep
  split
  · exact lookupCol_setCol_ne _ _ _ _ h
  · rfl

theorem hasCol_signedStep_mono (f : Frame) (c : String)
    (h : f.hasCol c = true) : (signedStep f).hasCol c = true := by
  unfold signedStep
  split
  · exact hasCol_setCol_mono _ _ _ _ h
  · exact h

theorem lookupCol_phaseTail_ne (f : Frame) (c : String)
    (h1 : ¬ c = "gender") (h2 : ¬ c = "insurance_type") (h3 : ¬ c = "amount_granted")
    (h4 : ¬ c = "remaining_balance") (h5 : ¬ c = "amount_used")
    (h6 : ¬ c = "full_grant_used") (h7 : ¬ c = "income_bracket")
    (h8 : ¬ c = "ready_for_review") (h9 : ¬ c = "signed_by_committee") :
    (phaseTail f).lookupCol c = f.lookupCol c := by
  unfold phaseTail amountStep insuranceStep genderStep
  rw [lookupCol_signedStep_ne _ _ h9, lookupCol_readyStep_ne _ _ h8,
    lookupCol_incomeStep_ne _ _ h7, lookupCol_balanceStep_ne _ _ h4 h5 h6,
    lookupCol_mapColIf_ne _ _ _ _ h3, lookupCol_mapColIf_ne _ _ _ _ h2,
    lookupCol_mapColIf_ne _ _ _ _ h1]

theorem hasCol_phaseTail_mono (f : Frame) (c : String)
    (h : f.hasCol c = true) : (phaseTail f).hasCol c = true := by
  unfold phaseTail
  apply hasCol_signedStep_mono
  apply hasCol_readyStep_mono
  apply hasCol_incomeStep_mono
  apply hasCol_balanceStep_mono
  unfold amountStep insuranceStep genderStep
  rw [hasCol_mapColIf, hasCol_mapColIf, hasCol_mapColIf]
  exact h

theorem lookupCol_dateSteps_ne (f : Frame) (c : String)
    (h1 : ¬ c = "request_date") (h2 : ¬ c = "date_of_birth") :
    (dateSteps f).lookupCol c = f.lookupCol c := by
  unfold dateSteps
  rw [lookupCol_mapColIf_ne _ _ _ _ h2, lookupCol_mapColIf_ne _ _ _ _ h1]

theorem hasCol_dateSteps (f : Frame) (c : String) :
    (dateSteps f).hasCol c = f.hasCol c := by
  unfold dateSteps
  rw [hasCol_mapColIf, hasCol_mapColIf]

theorem lookupCol_phaseFlags_ne (f : Frame) (c : String)
    (h1 : ¬ c = "application_signed") (h2 : ¬ c = "status") :
    (phaseFlags f).lookupCol c = f.lookupCol c := by
  unfold phaseFlags
  rw [lookupCol_fillOrSet_ne _ _ _ _ h2, lookupCol_fillOrSet_ne _ _ _ _ h1]

theorem hasCol_phaseFlags_mono (f : Frame) (c : String)
    (h : f.hasCol c = true) : (phaseFlags f).hasCol c = true := by
  unfold phaseFlags
  apply hasCol_fillOrSet_mono
  exact hasCol_fillOrSet_mono _ _ _ _ h

theorem lookupCol_cleanData_notTouched (y : Int) (f : Frame) (c : String)
    (h : ¬ c ∈ touchedCols) :
    (cleanData y f).lookupCol c = (phaseA f).lookupCol c := by
  simp only [touchedCols, List.mem_cons, List.not_mem_nil, or_false] at h
  push_neg at h
  obtain ⟨h1, h2, h3, h4, h5, h6, h7, h8, h9, h10, h11, h12, h13, h14⟩ := h
  unfold cleanData
  rw [lookupCol_phaseTail_ne _ _ h6 h7 h8 h9 h10 h11 h12 h13 h14,
    lookupCol_ageStep_ne _ _ _ h5, lookupCol_dateSteps_ne _ _ h3 h4,
    lookupCol_phaseFlags_ne _ _ h1 h2]

theorem hasCol_cleanData_mono (y : Int) (f : Frame) (c : String)
    (h : (phaseA f).hasCol c = true) : (cleanData y f).hasCol c = true := by
  unfold cleanData
  apply hasCol_phaseTail_mono
  apply hasCol_ageStep_mono
  rw [hasCol_dateSteps]
  exact hasCol_phaseFlags_mono _ _ h

theorem fillOrSet_absent (f : Frame) (t : String) (v : Val) (h : f.hasCol t = false) :
    (fillOrSet f t v).lookupCol t = some (List.replicate f.nrows (some v)) := by
  unfold fillOrSet
  rw [if_neg (by rw [h]; exact Bool.false_ne_true)]
  exact lookupCol_setCol_self _ _ _

theorem fillOrSet_self_allSome (f : Frame) (t : String) (v : Val) :
    ∃ cells, (fillOrSet f t v).lookupCol t = some cells ∧ ∀ x ∈ cells, x.isSome = true := by
  unfold fillOrSet
  split
  · next hp =>
      unfold Frame.hasCol at hp
      cases hl : f.cols.lookup t with
      | none => rw [hl] at hp; simp at hp
      | some old =>
          refine ⟨old.map (fun o => some (o.getD v)), ?_, ?_⟩
          · rw [lookupCol_mapCol_self]
            show (f.cols.lookup t).map _ = _
            rw [hl]
            rfl
          · intro x hx
            simp only [List.mem_map] at hx
            obtain ⟨o, _, rfl⟩ := hx
            rfl
  · refine ⟨List.replicate f.nrows (some v), lookupCol_setCol_self _ _ _, ?_⟩
    intro x hx
    rw [List.eq_of_mem_replicate hx]
    rfl

theorem colsAgree_refl (c : String) :
    ∀ l : List (String × List (Option Val)), colsAgree c l l := by
  intro l
  induction l with
  | nil => trivial
  | cons p ps ih =>
      obtain ⟨k, v⟩ := p
      exact ⟨rfl, fun _ => rfl, ih⟩

theorem colsAgree_lookup_ne (c c' : String) (hne : ¬ c' = c) :
    ∀ l1 l2, colsAgree c l1 l2 → l1.lookup c' = l2.lookup c' := by
  intro l1
  induction l1 with
  | nil =>
      intro l2 h
      cases l2 with
      | nil => rfl
      | cons q qs => simp [colsAgree] at h
  | cons p ps ih =>
      intro l2 h
      cases l2 with
      | nil => simp [colsAgree] at h
      | cons q qs =>
          obtain ⟨k1, v1⟩ := p
          obtain ⟨k2, v2⟩ := q
          simp only [colsAgree] at h
          obtain ⟨hname, hval, hrest⟩ := h
          subst hname
          by_cases hk : c' = k1
          · subst hk
            rw [lookup_cons_eq, lookup_cons_eq, hval (fun hh => hne hh)]
          · rw [lookup_cons_ne hk, lookup_cons_ne hk]
            exact ih qs hrest

theorem colsAgree_lookup_isSome (c c' : String) :
    ∀ l1 l2, colsAgree c l1 l2 → (l1.lookup c').isSome = (l2.lookup c').isSome := by
  intro l1
  induction l1 with
  | nil =>
      intro l2 h
      cases l2 with
      | nil => rfl
      | cons q qs => simp [colsAgree] at h
  | cons p ps ih =>
      intro l2 h
      cases l2 with
      | nil => simp [colsAgree] at h
      | cons q qs =>
          obtain ⟨k1, v1⟩ := p
          obtain ⟨k2, v2⟩ := q
          simp only [colsAgree] at h
          obtain ⟨hname, hval, hrest⟩ := h
          subst hname
          by_cases hk : c' = k1
          · subst hk
            rw [lookup_cons_eq, lookup_cons_eq]
            rfl
          · rw [lookup_cons_ne hk, lookup_cons_ne hk]
            exact ih qs hrest

theorem colsAgree_modifyCol (c t : String)
    (g1 g2 : List (Option Val) → List (Option Val))
    (hg : ¬ t = c → ∀ v, g1 v = g2 v) :
    ∀ l1 l2, colsAgree c l1 l2 → colsAgree c (modifyCol t g1 l1) (modifyCol t g2 l2) := by
  intro l1
  induction l1 with
  | nil =>
      intro l2 h
      cases l2 with
      | nil => trivial
      | cons q qs => simp [colsAgree] at h
  | cons p ps ih =>
      intro l2 h
      cases l2 with
      | nil => simp [colsAgree] at h
      | cons q qs =>
          obtain ⟨k1, v1⟩ := p
          obtain ⟨k2, v2⟩ := q
          simp only [colsAgree] at h
          obtain ⟨hname, hval, hrest⟩ := h
          subst hname
          by_cases hk : k1 = t
          · subst hk
            simp only [modifyCol, eq_self_iff_true, if_true, colsAgree]
            refine ⟨by trivial, ?_, ih qs hrest⟩
            intro hkc
            rw [hval hkc, hg (fun hh => hkc hh) v2]
          · simp only [modifyCol, if_neg hk, colsAgree]
            exact ⟨by trivial, hval, ih qs hrest⟩

theorem colsAgree_append (c t : String) (cells1 cells2 : List (Option Val))
    (hc : ¬ t = c → cells1 = cells2) :
    ∀ l1 l2, colsAgree c l1 l2 →
      colsAgree c (l1 ++ [(t, cells1)]) (l2 ++ [(t, cells2)]) := by
  intro l1
  induction l1 with
  | nil =>
      intro l2 h
      cases l2 with
      | nil => exact ⟨rfl, hc, trivial⟩
      | cons q qs => simp [colsAgree] at h
  | cons p ps ih =>
      intro l2 h
      cases l2 with
      | nil => simp [colsAgree] at h
      | cons q qs =>
          obtain ⟨k1, v1⟩ := p
          obtain ⟨k2, v2⟩ := q
          simp only [colsAgree] at h
          obtain ⟨hname, hval, hrest⟩ := h
          subst hname
          exact ⟨rfl, hval, ih qs hrest⟩

theorem frameAgree_nrows {c : String} {f1 f2 : Frame} (h : FrameAgree c f1 f2) :
    f1.nrows = f2.nrows := h.1

theorem frameAgree_lookup_ne {c : String} {f1 f2 : Frame} (h : FrameAgree c f1 f2)
    (c' : String) (hne : ¬ c' = c) : f1.lookupCol c' = f2.lookupCol c' :=
  colsAgree_lookup_ne c c' hne f1.cols f2.cols h.2

theorem frameAgree_hasCol {c : String} {f1 f2 : Frame} (h : FrameAgree c f1 f2)
    (c' : String) : f1.hasCol c' = f2.hasCol c' :=
  colsAgree_lookup_isSome c c' f1.cols f2.cols h.2

theorem frameAgree_getCol_ne {c : String} {f1 f2 : Frame} (h : FrameAgree c f1 f2)
    (c' : String) (hne : ¬ c' = c) : f1.getCol c' = f2.getCol c' := by
  unfold Frame.getCol
  rw [show f1.cols.lookup c' = f2.cols.lookup c' from frameAgree_lookup_ne h c' hne, h.1]

theorem frameAgree_refl (c : String) (f : Frame) : FrameAgree c f f :=
  ⟨rfl, colsAgree_refl c f.cols⟩

theorem frameAgree_mapCol {c : String} {f1 f2 : Frame} (h : FrameAgree c f1 f2)
    (t : String) (g : Option Val → Option Val) :
    FrameAgree c (f1.mapCol t g) (f2.mapCol t g) :=
  ⟨h.1, colsAgree_modifyCol c t (List.map g) (List.map g) (fun _ _ => rfl) f1.cols f2.cols h.2⟩

theorem frameAgree_setCol {c : String} {f1 f2 : Frame} (h : FrameAgree c f1 f2)
    (t : String) (cells1 cells2 : List (Option Val)) (hc : ¬ t = c → cells1 = cells2) :
    FrameAgree c (f1.setCol t cells1) (f2.setCol t cells2) := by
  unfold Frame.setCol
  rw [show f1.hasCol t = f2.hasCol t from frameAgree_hasCol h t]
  by_cases hb : f2.hasCol t = true
  · rw [if_pos hb, if_pos hb]
    exact ⟨h.1, colsAgree_modifyCol c t (fun _ => cells1) (fun _ => cells2)
      (fun hne _ => hc hne) f1.cols f2.cols h.2⟩
  · rw [if_neg hb, if_neg hb]
    exact ⟨h.1, colsAgree_append c t cells1 cells2 hc f1.cols f2.cols h.2⟩

theorem frameAgree_mapColIf {c : String} {f1 f2 : Frame} (h : FrameAgree c f1 f2)
    (t : String) (g : Option Val → Option Val) :
    FrameAgree c (mapColIf f1 t g) (mapColIf f2 t g) := by
  unfold mapColIf
  rw [show f1.hasCol t = f2.hasCol t from frameAgree_hasCol h t]
  by_cases hb : f2.hasCol t = true
  · rw [if_pos hb, if_pos hb]
    exact frameAgree_mapCol h t g
  · rw [if_neg hb, if_neg hb]
    exact h

theorem frameAgree_balanceStep {f1 f2 : Frame} (h : FrameAgree "age" f1 f2) :
    FrameAgree "age" (balanceStep f1) (balanceStep f2) := by
  unfold balanceStep
  rw [show f1.hasCol "remaining_balance" = f2.hasCol "remaining_balance" from
    frameAgree_hasCol h _]
  by_cases hb : f2.hasCol "remaining_balance" = true
  · rw [if_pos hb, if_pos hb]
    have h1 := frameAgree_mapCol h "remaining_balance" toNumeric
    have h2 := frameAgree_setCol h1 "amount_used"
      (zipSub ((f1.mapCol "remaining_balance" toNumeric).getCol "amount_granted")
        ((f1.mapCol "remaining_balance" toNumeric).getCol "remaining_balance"))
      (zipSub ((f2.mapCol "remaining_balance" toNumeric).getCol "amount_granted")
        ((f2.mapCol "remaining_balance" toNumeric).getCol "remaining_balance"))
      (fun _ => by
        rw [frameAgree_getCol_ne h1 "amount_granted" (by simp),
          frameAgree_getCol_ne h1 "remaining_balance" (by simp)])
    exact frameAgree_setCol h2 "full_grant_used" _ _ (fun _ => by
      rw [frameAgree_getCol_ne h2 "remaining_balance" (by simp)])
  · rw [if_neg hb, if_neg hb]
    exact h

theorem frameAgree_incomeStep {f1 f2 : Frame} (h : FrameAgree "age" f1 f2) :
    FrameAgree "age" (incomeStep f1) (incomeStep f2) := by
  unfold incomeStep
  rw [show f1.hasCol "monthly_income" = f2.hasCol "monthly_income" from
    frameAgree_hasCol h _]
  by_cases hb : f2.hasCol "monthly_income" = true
  · rw [if_pos hb, if_pos hb]
    exact frameAgree_setCol h "income_bracket" _ _ (fun _ => by
      rw [frameAgree_getCol_ne h "monthly_income" (by simp)])
  · rw [if_neg hb, if_neg hb]
    exact h

theorem frameAgree_readyStep {f1 f2 : Frame} (h : FrameAgree "age" f1 f2) :
    FrameAgree "age" (readyStep f1) (readyStep f2) := by
  unfold readyStep
  rw [show f1.hasCol "status" = f2.hasCol "status" from frameAgree_hasCol h _]
  by_cases hb : f2.hasCol "status" = true
  · rw [if_pos hb, if_pos hb]
    exact frameAgree_setCol h "ready_for_review" _ _ (fun _ => by
      rw [frameAgree_getCol_ne h "status" (by simp)])
  · rw [if_neg hb, if_neg hb]
    exact h

theorem frameAgree_signedStep {f1 f2 : Frame} (h : FrameAgree "age" f1 f2) :
    FrameAgree "age" (signedStep f1) (signedStep f2) := by
  unfold signedStep
  rw [show f1.hasCol "application_signed" = f2.hasCol "application_signed" from
    frameAgree_hasCol h _]
  by_cases hb : f2.hasCol "application_signed" = true
  · rw [if_pos hb, if_pos hb]
    exact frameAgree_setCol h "signed_by_committee" _ _ (fun _ => by
      rw [frameAgree_getCol_ne h "application_signed" (by simp)])
  · rw [if_neg hb, if_neg hb]
    exact h

theorem frameAgree_phaseTail {f1 f2 : Frame} (h : FrameAgree "age" f1 f2) :
    FrameAgree "age" (phaseTail f1) (phaseTail f2) := by
  unfold phaseTail amountStep insuranceStep genderStep
  exact frameAgree_signedStep (frameAgree_readyStep (frameAgree_incomeStep
    (frameAgree_balanceStep (frameAgree_mapColIf (frameAgree_mapColIf
      (frameAgree_mapColIf h "gender" capitalizeCell) "insurance_type" titleCell)
      "amount_granted" toNumeric))))

theorem frameAgree_ageStep (y y' : Int) (f : Frame) :
    FrameAgree "age" (ageStep y f) (ageStep y' f) := by
  unfold ageStep
  by_cases hb : f.hasCol "date_of_birth" = true
  · rw [if_pos hb, if_pos hb]
    exact frameAgree_setCol (frameAgree_refl "age" f) "age" _ _
      (fun hne => absurd rfl hne)
  · rw [if_neg hb, if_neg hb]
    exact frameAgree_refl "age" f

set_option maxRecDepth 8000

theorem nrows_setCol (f : Frame) (t : String) (cells : List (Option Val)) :
    (f.setCol t cells).nrows = f.nrows := by
  unfold Frame.setCol
  split <;> rfl

theorem nrows_fillOrSet (f : Frame) (t : String) (v : Val) :
    (fillOrSet f t v).nrows = f.nrows := by
  unfold fillOrSet
  split
  · rfl
  · exact nrows_setCol f t _

theorem hasCol_fillOrSet_ne (f : Frame) (t c : String) (v : Val) (h : ¬ c = t) :
    (fillOrSet f t v).hasCol c = f.hasCol c := by
  show ((fillOrSet f t v).lookupCol c).isSome = (f.lookupCol c).isSome
  rw [lookupCol_fillOrSet_ne f t c v h]

theorem getCol_eq_of_lookup (f : Frame) (c : String) (cells : List (Option Val))
    (h : f.lookupCol c = some cells) : f.getCol c = cells := by
  unfold Frame.getCol
  unfold Frame.lookupCol at h
  rw [h]
  rfl

/-- C2 (corrected): `income_bracket` uses the left-open, right-closed bins that
`pd.cut` builds from `bins=[0,2000,4000,6000,10000,100000]`: `(0,2000]` maps to
"<2k", `(2000,4000]` to "2–4k", `(4000,6000]` to "4–6k", `(6000,10000]` to
"6–10k" and `(10000,100000]` to "10k+"; each boundary value falls in the LOWER
bracket, and incomes `≤ 0`, `> 100000` or missing get no bracket. -/
theorem C2_amended (q : Rat) :
    (0 < q ∧ q ≤ 2000 → incomeBracket (some (Val.num q)) = some (Val.str "<2k")) ∧
    (2000 < q ∧ q ≤ 4000 → incomeBracket (some (Val.num q)) = some (Val.str "2–4k")) ∧
    (4000 < q ∧ q ≤ 6000 → incomeBracket (some (Val.num q)) = some (Val.str "4–6k")) ∧
    (6000 < q ∧ q ≤ 10000 → incomeBracket (some (Val.num q)) = some (Val.str "6–10k")) ∧
    (10000 < q ∧ q ≤ 100000 → incomeBracket (some (Val.num q)) = some (Val.str "10k+")) ∧
    (q ≤ 0 ∨ 100000 < q → incomeBracket (some (Val.num q)) = none) ∧
    incomeBracket none = none := by
  refine ⟨?_, ?_, ?_, ?_, ?_, ?_, rfl⟩
  · rintro ⟨h1, h2⟩
    simp only [incomeBracket]
    rw [if_pos ⟨h1, h2⟩]
  · rintro ⟨h1, h2⟩
    simp only [incomeBracket]
    rw [if_neg (by rintro ⟨a, b⟩; linarith), if_pos ⟨h1, h2⟩]
  · rintro ⟨h1, h2⟩
    simp only [incomeBracket]
    rw [if_neg (by rintro ⟨a, b⟩; linarith), if_neg (by rintro ⟨a, b⟩; linarith),
      if_pos ⟨h1, h2⟩]
  · rintro ⟨h1, h2⟩
    simp only [incomeBracket]
    rw [if_neg (by rintro ⟨a, b⟩; linarith), if_neg (by rintro ⟨a, b⟩; linarith),
      if_neg (by rintro ⟨a, b⟩; linarith), if_pos ⟨h1, h2⟩]
  · rintro ⟨h1, h2⟩
    simp only [incomeBracket]
    rw [if_neg (by rintro ⟨a, b⟩; linarith), if_neg (by rintro ⟨a, b⟩; linarith),
      if_neg (by rintro ⟨a, b⟩; linarith), if_neg (by rintro ⟨a, b⟩; linarith),
      if_pos ⟨h1, h2⟩]
  · rintro (h | h) <;>
      simp only [incomeBracket] <;>
      rw [if_neg (by rintro ⟨a, b⟩; linarith), if_neg (by rintro ⟨a, b⟩; linarith),
        if_neg (by rintro ⟨a, b⟩; linarith), if_neg (by rintro ⟨a, b⟩; linarith),
        if_neg (by rintro ⟨a, b⟩; linarith)]

/-- C1 (corrected): in `clean_data`, `amount_used = amount_granted −
remaining_balance`, and `full_grant_used` is true iff
`amount_granted − amount_used ≤ 0` — a zero tolerance, not 0.01 — and is false
when `remaining_balance` is missing.  The 0.01 tolerance appears only in the
dashboard page's `Fully Utilized` column (`leTolCell`). -/
theorem C1_amended (a r : Rat) :
    subCell (some (Val.num a)) (some (Val.num r)) = some (Val.num (a - r)) ∧
    (leZeroCell (some (Val.num r)) = some (Val.boolV true) ↔ a - (a - r) ≤ 0) ∧
    leZeroCell none = some (Val.boolV false) ∧
    (leTolCell (some (Val.num r)) = some (Val.boolV true) ↔ r ≤ 1 / 100) := by
  refine ⟨rfl, ?_, rfl, ?_⟩
  · simp only [leZeroCell, Option.some.injEq, Val.boolV.injEq, decide_eq_true_eq]
    constructor <;> intro <;> linarith
  · simp only [leTolCell, Option.some.injEq, Val.boolV.injEq, decide_eq_true_eq]

/-- C3 (corrected): the derived boolean `ready_for_review` of the normalized
output is true exactly when the status text, lower-cased, EQUALS the exact
string "approved"; containment, "ready" and "review" do not count. -/
theorem C3_amended (s : String) :
    (readyFlag (some (Val.str s)) = some (Val.boolV true) ↔ lowerString s = "approved") ∧
    readyFlag none = some (Val.boolV false) := by
  constructor
  · simp [readyFlag]
  · rfl

/-- C6 (corrected): when `date_of_birth` parses, `age` equals
current year − birth year as a (possibly negative) integer — the code does not
clamp future birth dates to a nonnegative age; when the date is missing or
unparseable, `age` is absent. -/
theorem C6_amended (y : Int) (s : String) :
    ageOf y (toDatetime (some (Val.str s))) =
      (parseDate s).map (fun d => Val.num ((y - d.year : Int) : Rat)) ∧
    ageOf y none = none := by
  constructor
  · cases h : parseDate s <;> simp [toDatetime, ageOf, h]
  · rfl

/-- C8 (corrected): `clean_data` reads the clock (`pd.to_datetime('today')`),
so its output is a function of the run year as well as the raw table; two runs
with the same current year yield identical output, and runs in different years
agree on every column except `age`. -/
theorem C8_amended (y y' : Int) (f : Frame) (c : String) (h : ¬ c = "age") :
    (cleanData y f).lookupCol c = (cleanData y' f).lookupCol c := by
  unfold cleanData
  exact frameAgree_lookup_ne
    (frameAgree_phaseTail (frameAgree_ageStep y y' (dateSteps (phaseFlags (phaseA f))))) c h

/-- C9 (corrected): no column is dropped by alias resolution, and every
column whose standardized name is none of the canonically-handled names keeps
exactly the cells it had after standardize/rename/empty-row-drop; but columns
such as `gender`, `insurance_type` and `remaining_balance`, though matched by
no alias entry, do have their cell values rewritten by later cleaning steps. -/
theorem C9_amended (y : Int) (f : Frame) (c : String) (h : ¬ c ∈ touchedCols) :
    (cleanData y f).lookupCol c = (phaseA f).lookupCol c ∧
    (∀ c', (phaseA f).hasCol c' = true → (cleanData y f).hasCol c' = true) :=
  ⟨lookupCol_cleanData_notTouched y f c h, fun c' hc' => hasCol_cleanData_mono y f c' hc'⟩

/-- C5 (corrected): the full-utilization default lives in the dashboard's
utilization page, not in `clean_data`: when none of the four utilization
source columns exists (and `Amount` does), the page's derived
`Amount Utilized` column equals the `Amount` column row for row. -/
theorem C5_amended (f : Frame)
    (_hAmt : f.hasCol "Amount" = true)
    (h1 : f.hasCol "Amount Utilized" = false)
    (h2 : f.hasCol "Utilized Amount" = false)
    (h3 : f.hasCol "amount_used" = false)
    (h4 : f.hasCol "Remaining Balance" = false) :
    (grantUtilization f).lookupCol "Amount Utilized" = some (f.getCol "Amount") := by
  unfold grantUtilization
  have hfind : utilSourceCols.find? (fun c => f.hasCol c) = none := by
    simp [utilSourceCols, List.find?, h1, h2, h3, h4]
  simp only [hfind]
  rw [lookupCol_setCol_ne _ _ _ _ (by decide), lookupCol_setCol_ne _ _ _ _ (by decide),
    lookupCol_setCol_self]

/-- C7 (confirmed): in the normalized output, `status` and
`application_signed` cells are never missing; when the source column is absent
the whole column is filled with the sentinel "Unknown" (status) or "Missing"
(application_signed), and when it is present its missing cells are filled by
`fillna`, so every cell is populated. -/
theorem C7_defaults (y : Int) (f : Frame) :
    (∀ v ∈ ((cleanData y f).getCol "status"), v.isSome = true) ∧
    (∀ v ∈ ((cleanData y f).getCol "application_signed"), v.isSome = true) ∧
    ((phaseA f).hasCol "status" = false →
      (cleanData y f).lookupCol "status" =
        some (List.replicate (phaseA f).nrows (some (Val.str "Unknown")))) ∧
    ((phaseA f).hasCol "application_signed" = false →
      (cleanData y f).lookupCol "application_signed" =
        some (List.replicate (phaseA f).nrows (some (Val.str "Missing")))) := by
  have hs : (cleanData y f).lookupCol "status" = (phaseFlags (phaseA f)).lookupCol "status" := by
    unfold cleanData
    rw [lookupCol_phaseTail_ne _ _ (by decide) (by decide) (by decide) (by decide) (by decide)
        (by decide) (by decide) (by decide) (by decide),
      lookupCol_ageStep_ne _ _ _ (by decide),
      lookupCol_dateSteps_ne _ _ (by decide) (by decide)]
  have ha : (cleanData y f).lookupCol "application_signed" =
      (phaseFlags (phaseA f)).lookupCol "application_signed" := by
    unfold cleanData
    rw [lookupCol_phaseTail_ne _ _ (by decide) (by decide) (by decide) (by decide) (by decide)
        (by decide) (by decide) (by decide) (by decide),
      lookupCol_ageStep_ne _ _ _ (by decide),
      lookupCol_dateSteps_ne _ _ (by decide) (by decide)]
  obtain ⟨scells, hsc, hss⟩ := fillOrSet_self_allSome
    (fillOrSet (phaseA f) "application_signed" (Val.str "Missing")) "status" (Val.str "Unknown")
  obtain ⟨acells, hac0, has0⟩ :=
    fillOrSet_self_allSome (phaseA f) "application_signed" (Val.str "Missing")
  have hac : (phaseFlags (phaseA f)).lookupCol "application_signed" = some acells := by
    show (fillOrSet (fillOrSet (phaseA f) "application_signed" (Val.str "Missing"))
      "status" (Val.str "Unknown")).lookupCol "application_signed" = some acells
    rw [lookupCol_fillOrSet_ne _ _ _ _ (by decide)]
    exact hac0
  refine ⟨?_, ?_, ?_, ?_⟩
  · intro v hv
    have hg : (cleanData y f).getCol "status" = scells :=
      getCol_eq_of_lookup _ _ _ (by rw [hs]; exact hsc)
    rw [hg] at hv
    exact hss v hv
  · intro v hv
    have hg : (cleanData y f).getCol "application_signed" = acells :=
      getCol_eq_of_lookup _ _ _ (by rw [ha]; exact hac)
    rw [hg] at hv
    exact has0 v hv
  · intro hmiss
    rw [hs]
    show (fillOrSet (fillOrSet (phaseA f) "application_signed" (Val.str "Missing"))
      "status" (Val.str "Unknown")).lookupCol "status" = _
    rw [fillOrSet_absent _ _ _ (by rw [hasCol_fillOrSet_ne _ _ _ _ (by decide)]; exact hmiss),
      nrows_fillOrSet]
  · intro hmiss
    rw [ha]
    show (fillOrSet (fillOrSet (phaseA f) "application_signed" (Val.str "Missing"))
      "status" (Val.str "Unknown")).lookupCol "application_signed" = _
    rw [lookupCol_fillOrSet_ne _ _ _ _ (by decide), fillOrSet_absent _ _ _ hmiss]

/-- C10 (confirmed): the output of `clean_data` always contains the columns
`status`, `application_signed`, `ready_for_review` and `signed_by_committee`,
even when the raw input has no status or signature source column; in that case
every row's `signed_by_committee` is present and equal to false, computed from
the "Missing" sentinel. -/
theorem C10_flag_columns (y : Int) (f : Frame) :
    ((cleanData y f).hasCol "status" = true ∧
     (cleanData y f).hasCol "application_signed" = true ∧
     (cleanData y f).hasCol "ready_for_review" = true ∧
     (cleanData y f).hasCol "signed_by_committee" = true) ∧
    ((phaseA f).hasCol "application_signed" = false →
      (cleanData y f).lookupCol "signed_by_committee" =
        some (List.replicate (phaseA f).nrows (some (Val.boolV false)))) := by
  unfold cleanData phaseTail
  set A := ageStep y (dateSteps (phaseFlags (phaseA f))) with hAdef
  set P := amountStep (insuranceStep (genderStep A)) with hPdef
  set B := balanceStep P with hBdef
  set I := incomeStep B with hIdef
  set R := readyStep I with hRdef
  have hFs : (phaseFlags (phaseA f)).hasCol "status" = true := by
    show (fillOrSet (fillOrSet (phaseA f) "application_signed" (Val.str "Missing"))
      "status" (Val.str "Unknown")).hasCol "status" = true
    exact hasCol_fillOrSet_self _ _ _
  have hFa : (phaseFlags (phaseA f)).hasCol "application_signed" = true := by
    show (fillOrSet (fillOrSet (phaseA f) "application_signed" (Val.str "Missing"))
      "status" (Val.str "Unknown")).hasCol "application_signed" = true
    rw [hasCol_fillOrSet_ne _ _ _ _ (by decide)]
    exact hasCol_fillOrSet_self _ _ _
  have hAs : A.hasCol "status" = true := by
    rw [hAdef]
    apply hasCol_ageStep_mono
    rw [hasCol_dateSteps]
    exact hFs
  have hAa : A.hasCol "application_signed" = true := by
    rw [hAdef]
    apply hasCol_ageStep_mono
    rw [hasCol_dateSteps]
    exact hFa
  have hPs : P.hasCol "status" = true := by
    rw [hPdef]
    unfold amountStep insuranceStep genderStep
    rw [hasCol_mapColIf, hasCol_mapColIf, hasCol_mapColIf]
    exact hAs
  have hPa : P.hasCol "application_signed" = true := by
    rw [hPdef]
    unfold amountStep insuranceStep genderStep
    rw [hasCol_mapColIf, hasCol_mapColIf, hasCol_mapColIf]
    exact hAa
  have hIs : I.hasCol "status" = true := by
    rw [hIdef, hBdef]
    exact hasCol_incomeStep_mono _ _ (hasCol_balanceStep_mono _ _ hPs)
  have hIa : I.hasCol "application_signed" = true := by
    rw [hIdef, hBdef]
    exact hasCol_incomeStep_mono _ _ (hasCol_balanceStep_mono _ _ hPa)
  have hRs : R.hasCol "status" = true := by
    rw [hRdef]
    exact hasCol_readyStep_mono _ _ hIs
  have hRa : R.hasCol "application_signed" = true := by
    rw [hRdef]
    exact hasCol_readyStep_mono _ _ hIa
  have hRready : R.hasCol "ready_for_review" = true := by
    rw [hRdef]
    unfold readyStep
    rw [hIs, if_pos rfl]
    exact hasCol_setCol_self _ _ _
  have hsigned : signedStep R = R.setCol "signed_by_committee"
      ((R.getCol "application_signed").map signedFlag) := by
    unfold signedStep
    rw [hRa, if_pos rfl]
  refine ⟨⟨?_, ?_, ?_, ?_⟩, ?_⟩
  · exact hasCol_signedStep_mono _ _ hRs
  · exact hasCol_signedStep_mono _ _ hRa
  · exact hasCol_signedStep_mono _ _ hRready
  · rw [hsigned]
    exact hasCol_setCol_self _ _ _
  · intro hmiss
    have hFa_val : (phaseFlags (phaseA f)).lookupCol "application_signed" =
        some (List.replicate (phaseA f).nrows (some (Val.str "Missing"))) := by
      show (fillOrSet (fillOrSet (phaseA f) "application_signed" (Val.str "Missing"))
        "status" (Val.str "Unknown")).lookupCol "application_signed" = _
      rw [lookupCol_fillOrSet_ne _ _ _ _ (by decide), fillOrSet_absent _ _ _ hmiss]
    have hRa_val : R.lookupCol "application_signed" =
        some (List.replicate (phaseA f).nrows (some (Val.str "Missing"))) := by
      rw [hRdef, hIdef, hBdef, hPdef, hAdef]
      rw [lookupCol_readyStep_ne _ _ (by decide), lookupCol_incomeStep_ne _ _ (by decide),
        lookupCol_balanceStep_ne _ _ (by decide) (by decide) (by decide)]
      unfold amountStep insuranceStep genderStep
      rw [lookupCol_mapColIf_ne _ _ _ _ (by decide), lookupCol_mapColIf_ne _ _ _ _ (by decide),
        lookupCol_mapColIf_ne _ _ _ _ (by decide), lookupCol_ageStep_ne _ _ _ (by decide),
        lookupCol_dateSteps_ne _ _ (by decide) (by decide)]
      exact hFa_val
    rw [hsigned, lookupCol_setCol_self, getCol_eq_of_lookup _ _ _ hRa_val, List.map_replicate]
    have hflag : signedFlag (some (Val.str "Missing")) = some (Val.boolV false) := by
      with_unfolding_all decide
    rw [hflag]

/-- C1 counterexample: on the raw row with Amount 100 and Remaining Balance
0.005, `clean_data` sets `full_grant_used` to false even though
`amount_granted − amount_used = 0.005 ≤ 0.01`: the code's test is
`remaining_balance ≤ 0`, not the claimed 0.01 tolerance. -/
theorem C1_counterexample :
    (cleanData 2025 c1frame).lookupCol "full_grant_used" = some [some (Val.boolV false)] ∧
    (cleanData 2025 c1frame).lookupCol "amount_granted" = some [some (Val.num 100)] ∧
    (cleanData 2025 c1frame).lookupCol "remaining_balance" = some [some (Val.num (1 / 200))] ∧
    (100 : Rat) - (100 - 1 / 200) ≤ 1 / 100 := by
  refine ⟨?_, ?_, ?_, by norm_num⟩ <;> with_unfolding_all decide

/-- C2 counterexample: monthly_income 2000 is assigned bracket "<2k", not the
claimed "2–4k" (the boundary goes to the lower bracket), and monthly_income 0
gets no bracket although the claimed interval `[0,2000)` contains 0. -/
theorem C2_counterexample :
    (cleanData 2025 c2frame).lookupCol "income_bracket" = some [some (Val.str "<2k"), none] ∧
    ¬ some (Val.str "<2k") = some (Val.str "2–4k") := by
  refine ⟨?_, ?_⟩ <;> with_unfolding_all decide

/-- C3 counterexample: a row whose status is "Ready" — which case-insensitively
contains "ready", so the claim says `ready_for_review` is true — gets
`ready_for_review = false` from `clean_data`. -/
theorem C3_counterexample :
    (cleanData 2025 c3frame).lookupCol "ready_for_review" = some [some (Val.boolV false)] ∧
    specReady "Ready" = true := by
  refine ⟨?_, ?_⟩ <;> with_unfolding_all decide

/-- C5 counterexample: on a raw input with an amount column and no
utilization source column, the normalized output of `clean_data` has NO
`amount_used` column at all, rather than `amount_used = amount_granted`. -/
theorem C5_counterexample :
    (cleanData 2025 c5frame).hasCol "amount_used" = false ∧
    (cleanData 2025 c5frame).lookupCol "amount_granted" = some [some (Val.num 500)] := by
  refine ⟨?_, ?_⟩ <;> with_unfolding_all decide

/-- C6 counterexample: for a birth date in year 2200 — a parseable date
inside pandas' `Timestamp` range — and a run year of 2025, `clean_data`
derives `age = −175`, a negative value, refuting the claim that `age` is
always a nonnegative integer. -/
theorem C6_counterexample :
    (cleanData 2025 c6frame).lookupCol "age" = some [some (Val.num (-175))] ∧
    ((-175 : Rat) < 0) := by
  refine ⟨?_, by norm_num⟩
  with_unfolding_all decide

/-- C8 counterexample: the same raw table cleaned in 2025 and in 2026
produces different outputs (age 25 vs 26), so re-running on an unchanged
input is not always identical output. -/
theorem C8_counterexample :
    (cleanData 2025 c8frame).lookupCol "age" = some [some (Val.num 25)] ∧
    (cleanData 2026 c8frame).lookupCol "age" = some [some (Val.num 26)] ∧
    cleanData 2025 c8frame ≠ cleanData 2026 c8frame := by
  refine ⟨?_, ?_, ?_⟩ <;> with_unfolding_all decide

/-- C9 counterexample: the raw column "Gender" standardizes to "gender",
which matches no alias-table entry, yet its cell value "male " is rewritten to
"Male" — an unmatched column does not pass through with unchanged cells. -/
theorem C9_counterexample :
    renameMap.lookup "gender" = none ∧
    (cleanData 2025 c9frame).lookupCol "gender" = some [some (Val.str "Male")] ∧
    ¬ some (Val.str "Male") = some (Val.str "male ") := by
  refine ⟨?_, ?_, ?_⟩ <;> with_unfolding_all decide

/-- C4 (confirmed): a per-cell date value that fails to parse never aborts
its row: the cell becomes missing (`NaT`), the derived `age` is absent, and
the row survives — on the scenario row `{"DOB": "13/45/2000"}` the output has
one row with `date_of_birth` and `age` both absent, and the embedding is a
total function, so no exception is possible. -/
theorem C4_no_abort (s : String) (h : parseDate s = none) :
    toDatetime (some (Val.str s)) = none ∧
    ageOf 2025 (toDatetime (some (Val.str s))) = none ∧
    (cleanData 2025 c4frame).lookupCol "date_of_birth" = some [none] ∧
    (cleanData 2025 c4frame).lookupCol "age" = some [none] ∧
    (cleanData 2025 c4frame).nrows = 1 := by
  refine ⟨?_, ?_, ?_, ?_, ?_⟩
  · simp [toDatetime, h]
  · simp [toDatetime, ageOf, h]
  · with_unfolding_all decide
  · with_unfolding_all decide
  · with_unfolding_all decide

/-- Witness for C4 at the concrete invalid date "13/45/2000". -/
theorem C4_witness :
    parseDate "13/45/2000" = none ∧
    toDatetime (some (Val.str "13/45/2000")) = none ∧
    (cleanData 2025 c4frame).lookupCol "age" = some [none] := by
  have h : parseDate "13/45/2000" = none := by with_unfolding_all decide
  exact ⟨h, (C4_no_abort "13/45/2000" h).1, (C4_no_abort "13/45/2000" h).2.2.2.1⟩

/-- Witness for C5 on a concrete table with an Amount column and no
utilization source column. -/
theorem C5_witness :
    (grantUtilization w5frame).lookupCol "Amount Utilized" = some (w5frame.getCol "Amount") ∧
    (grantUtilization w5frame).lookupCol "Amount Utilized" =
      some [some (Val.num 500), some (Val.num 250)] := by
  refine ⟨C5_amended w5frame ?_ ?_ ?_ ?_ ?_, ?_⟩ <;> with_unfolding_all decide

/-- Witness for C7 on a concrete raw input with neither status nor
signature source column. -/
theorem C7_witness :
    (cleanData 2025 w7frame).lookupCol "status" =
      some (List.replicate (phaseA w7frame).nrows (some (Val.str "Unknown"))) ∧
    (cleanData 2025 w7frame).lookupCol "application_signed" =
      some (List.replicate (phaseA w7frame).nrows (some (Val.str "Missing"))) ∧
    (∀ v ∈ ((cleanData 2025 w7frame).getCol "status"), v.isSome = true) :=
  ⟨(C7_defaults 2025 w7frame).2.2.1 (by with_unfolding_all decide),
   (C7_defaults 2025 w7frame).2.2.2 (by with_unfolding_all decide),
   (C7_defaults 2025 w7frame).1⟩

/-- Witness for C8: the ready_for_review column does not depend on the run
year. -/
theorem C8_witness :
    (cleanData 2025 w8frame).lookupCol "ready_for_review" =
      (cleanData 2026 w8frame).lookupCol "ready_for_review" :=
  C8_amended 2025 2026 w8frame "ready_for_review" (by decide)

/-- Witness for C9 on the untouched passthrough column "pt_name". -/
theorem C9_witness :
    (cleanData 2025 w9frame).lookupCol "pt_name" = (phaseA w9frame).lookupCol "pt_name" ∧
    ((phaseA w9frame).hasCol "pt_name" = true →
      (cleanData 2025 w9frame).hasCol "pt_name" = true) ∧
    (phaseA w9frame).lookupCol "pt_name" = some [some (Val.str "X")] :=
  ⟨(C9_amended 2025 w9frame "pt_name" (by decide)).1,
   fun hc => (C9_amended 2025 w9frame "pt_name" (by decide)).2 "pt_name" hc,
   by with_unfolding_all decide⟩

/-- Witness for C10 on a concrete raw input with no signature source
column. -/
theorem C10_witness :
    (cleanData 2025 w10frame).hasCol "ready_for_review" = true ∧
    (cleanData 2025 w10frame).lookupCol "signed_by_committee" =
      some (List.replicate (phaseA w10frame).nrows (some (Val.boolV false))) :=
  ⟨(C10_flag_columns 2025 w10frame).1.2.2.1,
   (C10_flag_columns 2025 w10frame).2 (by with_unfolding_all decide)⟩


/-- Witness for C1 at amount 100 and remaining balance 1/200. -/
theorem C1_witness :
    subCell (some (Val.num 100)) (some (Val.num (1 / 200))) =
      some (Val.num (100 - 1 / 200)) ∧
    (leZeroCell (some (Val.num (1 / 200))) = some (Val.boolV true) ↔
      (100 : Rat) - (100 - 1 / 200) ≤ 0) ∧
    leZeroCell none = some (Val.boolV false) ∧
    (leTolCell (some (Val.num (1 / 200))) = some (Val.boolV true) ↔
      (1 : Rat) / 200 ≤ 1 / 100) :=
  C1_amended 100 (1 / 200)

/-- Witness for C2 at the boundary income 2000. -/
theorem C2_witness :
    incomeBracket (some (Val.num 2000)) = some (Val.str "<2k") :=
  (C2_amended 2000).1 ⟨by norm_num, by norm_num⟩

/-- Witness for C3 at the status text "Approved". -/
theorem C3_witness :
    (readyFlag (some (Val.str "Approved")) = some (Val.boolV true) ↔
      lowerString "Approved" = "approved") ∧
    readyFlag none = some (Val.boolV false) :=
  C3_amended "Approved"

/-- Witness for C6 at the future birth date "01/01/2200" and run year 2025. -/
theorem C6_witness :
    ageOf 2025 (toDatetime (some (Val.str "01/01/2200"))) =
      (parseDate "01/01/2200").map (fun d => Val.num ((2025 - d.year : Int) : Rat)) ∧
    ageOf 2025 none = none :=
  C6_amended 2025 "01/01/2200"
